import Mathlib

/-
Shallow embedding of the Nova service (app/db/session.py, app/main.py,
app/routers/core.py, app/models/base.py) and proofs about it.

Python-level conventions used throughout:
- An unset optional value (`None`, or an absent environment variable /
  dict key) is `Option.none`; a set value is `some s`.
- Python truthiness on an optional string (`if not url`) is `pyTruthy`.
- A raised Python exception is a `PyExc`: its class kind, its message,
  and the chained cause installed by `raise ... from ...`.
- Side effects that matter to the claims (resolving the URL, connection
  attempts with the `SELECT 1` probe, `time.sleep`, session open/close)
  are made observable as explicit event traces.
-/

namespace Nova

/-- Kinds of Python exception classes relevant to the Nova source:
`RuntimeError` (the class used by `get_database_url` and `get_engine`),
`HTTPException`, and any other class (e.g. a database driver error). -/
inductive PyExcKind where
  | runtimeError
  | httpException
  | other
deriving DecidableEq, Repr

/-- A plain Python exception value: class kind and message. -/
structure PyErr where
  kind : PyExcKind
  msg : String
deriving DecidableEq, Repr

/-- A raised Python exception: the exception itself plus the optional
chained cause installed by `raise ... from ...`. -/
structure PyExc where
  err : PyErr
  cause : Option PyErr
deriving DecidableEq, Repr

/-- Python truthiness of an optional string: `None` and `""` are falsy,
every other string is truthy.  Embeds `if not url:` in session.py. -/
def pyTruthy : Option String → Bool
  | none => false
  | some s => !(s == "")

/-- Python `a or b` on optional strings: `a` when truthy, else `b`.
Embeds `os.getenv("NOVA_DATABASE_URL") or os.getenv("DATABASE_URL")`. -/
def pyOr (a b : Option String) : Option String :=
  if pyTruthy a then a else b

/-- The process environment as seen by `get_database_url`: the two
environment variables it reads. -/
structure Env where
  nova_database_url : Option String
  database_url : Option String
deriving DecidableEq, Repr

/-- The message of the `RuntimeError` raised by `get_database_url` when
no database URL is configured (session.py lines 63-67; the two adjacent
Python string literals concatenate). -/
def dbUrlNotConfiguredMsg : String :=
  "Database URL not configured. Set NOVA_DATABASE_URL or DATABASE_URL in your environment."

/-- The exception raised by `get_database_url` when nothing is
configured: a `RuntimeError` with no chained cause. -/
def dbUrlNotConfiguredExc : PyExc :=
  { err := { kind := .runtimeError, msg := dbUrlNotConfiguredMsg }, cause := none }

/-- Embeds `get_database_url` (session.py lines 44-68): prefer
`settings.database_url`, fall back to `NOVA_DATABASE_URL` then
`DATABASE_URL`, raise `RuntimeError` when nothing non-empty is found. -/
def get_database_url (settings_database_url : Option String) (env : Env) :
    Except PyExc String :=
  let url := settings_database_url
  let url := if pyTruthy url then url
             else pyOr env.nova_database_url env.database_url
  if pyTruthy url then .ok (url.getD "")
  else .error dbUrlNotConfiguredExc

/-- A SQLAlchemy engine as produced by
`create_engine(db_url, pool_pre_ping=True)`. -/
structure Engine where
  url : String
  pool_pre_ping : Bool
deriving DecidableEq, Repr

/-- A SQLAlchemy session factory as produced by
`sessionmaker(autocommit=False, autoflush=False, bind=engine)`. -/
structure SessionFactory where
  autocommit : Bool
  autoflush : Bool
  bind : Engine
deriving DecidableEq, Repr

/-- A session object, `db = _SESSION_LOCAL()`. -/
structure SessionObj where
  factory : SessionFactory
deriving DecidableEq, Repr

/-- The module-level mutable state of session.py: the cached engine
`_ENGINE` and the cached session factory `_SESSION_LOCAL`. -/
structure DbState where
  _ENGINE : Option Engine
  _SESSION_LOCAL : Option SessionFactory
deriving DecidableEq, Repr

/-- Observable side effects of `get_engine`: resolving the database URL,
a connection attempt (opening a connection and executing the liveness
probe), and `time.sleep` for a number of seconds. -/
inductive Event where
  | resolveUrl
  | connectAttempt (attempt : Nat) (probeSql : String)
  | sleep (seconds : ℚ)
deriving DecidableEq, Repr

/-- Recognizes a connection-attempt event. -/
def isConnectAttempt : Event → Bool
  | .connectAttempt _ _ => true
  | _ => false

/-- Recognizes a sleep event. -/
def isSleep : Event → Bool
  | .sleep _ => true
  | _ => false

/-- The message of the `RuntimeError` raised when the retry budget is
exhausted (session.py lines 128-130, an f-string over `max_retries`). -/
def exhaustMsg (max_retries : Nat) : String :=
  "Could not initialize database engine after " ++ toString max_retries ++ " attempts"

/-- The exception raised by `get_engine` on exhausting its retries:
`raise RuntimeError(f"...") from last_exc`. -/
def engineExhaustedExc (max_retries : Nat) (last_exc : Option PyErr) : PyExc :=
  { err := { kind := .runtimeError, msg := exhaustMsg max_retries }, cause := last_exc }

/-- The message of the `RuntimeError` raised when SQLAlchemy is not
installed (session.py lines 87-90 and 149-152). -/
def sqlalchemyMissingMsg : String :=
  "SQLAlchemy is not installed. Install \x27sqlalchemy\x27 to use the database layer."

/-- Embeds the `for attempt in range(1, max_retries + 1)` loop of
`get_engine` (session.py lines 95-130).  `attempts` is the list of
remaining attempt numbers; `connectFail k` is `none` when attempt `k`
(creating the engine, opening a connection, executing `SELECT 1`)
succeeds, and `some e` when it raises exception `e`.  `last_exc` tracks
the Python local of the same name.  Returns the loop outcome and the
trace of observable events. -/
def connectLoop (db_url : String) (connectFail : Nat → Option PyErr)
    (max_retries : Nat) (backoff_seconds : ℚ) :
    List Nat → Option PyErr → Except PyExc Engine × List Event
  | [], last_exc =>
    (.error (engineExhaustedExc max_retries last_exc), [])
  | attempt :: rest, _last_exc =>
    match connectFail attempt with
    | none =>
      (.ok { url := db_url, pool_pre_ping := true },
       [.connectAttempt attempt "SELECT 1"])
    | some exc =>
      let sleeps : List Event :=
        if attempt < max_retries then [.sleep (backoff_seconds * (attempt : ℚ))]
        else []
      let next := connectLoop db_url connectFail max_retries backoff_seconds rest (some exc)
      (next.1, .connectAttempt attempt "SELECT 1" :: (sleeps ++ next.2))

/-- Embeds `get_engine` (session.py lines 71-130).  `sqlalchemyInstalled`
models whether the optional `from sqlalchemy import create_engine, ...`
succeeded (`create_engine is None` check); `connectFail` is the outcome
of each connection attempt.  Returns the result, the updated module
state, and the trace of observable events. -/
def get_engine (sqlalchemyInstalled : Bool) (settings_database_url : Option String)
    (env : Env) (connectFail : Nat → Option PyErr) (st : DbState)
    (max_retries : Nat) (backoff_seconds : ℚ) :
    Except PyExc Engine × DbState × List Event :=
  match st._ENGINE with
  | some e => (.ok e, st, [])
  | none =>
    if !sqlalchemyInstalled then
      (.error { err := { kind := .runtimeError, msg := sqlalchemyMissingMsg }, cause := none },
       st, [])
    else
      match get_database_url settings_database_url env with
      | .error e => (.error e, st, [.resolveUrl])
      | .ok db_url =>
        let r := connectLoop db_url connectFail max_retries backoff_seconds
                   (List.range' 1 max_retries) none
        match r.1 with
        | .ok engine =>
          (.ok engine, { st with _ENGINE := some engine }, .resolveUrl :: r.2)
        | .error e => (.error e, st, .resolveUrl :: r.2)

/-- Observable session lifecycle events of `get_session`. -/
inductive SessEvent where
  | sessionCreated
  | sessionClosed
deriving DecidableEq, Repr

/-- Embeds the `try: yield db finally: db.close()` of `get_session`
(session.py lines 164-167): whatever the consumer of the yielded session
does — finish normally or raise — `db.close()` runs afterwards, and the
consumer's outcome is then propagated unchanged. -/
def yieldWithClose {α : Type} (db : SessionObj)
    (consumer : SessionObj → Except PyExc α) :
    Except PyExc α × List SessEvent :=
  match consumer db with
  | .ok a => (.ok a, [.sessionClosed])
  | .error e => (.error e, [.sessionClosed])

/-- Embeds the generator `get_session` (session.py lines 133-167) run to
completion against a consumer of the yielded session.  `get_engine` is
called with its Python default arguments `max_retries=3`,
`backoff_seconds=1.0`.  Returns the outcome, the updated module state,
the engine-level event trace, and the session lifecycle trace. -/
def get_session {α : Type} (sqlalchemyInstalled : Bool)
    (settings_database_url : Option String) (env : Env)
    (connectFail : Nat → Option PyErr) (st : DbState)
    (consumer : SessionObj → Except PyExc α) :
    Except PyExc α × DbState × List Event × List SessEvent :=
  if !sqlalchemyInstalled then
    (.error { err := { kind := .runtimeError, msg := sqlalchemyMissingMsg }, cause := none },
     st, [], [])
  else
    let r := get_engine sqlalchemyInstalled settings_database_url env connectFail st 3 1
    match r.1 with
    | .error e => (.error e, r.2.1, r.2.2, [])
    | .ok engine =>
      let st1 := r.2.1
      let st2 :=
        match st1._SESSION_LOCAL with
        | some _ => st1
        | none =>
          { st1 with _SESSION_LOCAL := some ⟨false, false, engine⟩ }
      let db : SessionObj :=
        ⟨st2._SESSION_LOCAL.getD ⟨false, false, engine⟩⟩
      let y := yieldWithClose db consumer
      (y.1, st2, r.2.2, .sessionCreated :: y.2)

/-- The static version configuration (`settings.version` /
`app.state.version_info`), restricted to the keys the embedded handlers
read with `.get`; an absent key is `none`. -/
structure VersionInfo where
  version : Option String
  build : Option String
  build_date : Option String
  api_schema_version : Option String
  master_doc_version : Option String
deriving DecidableEq, Repr

/-- The `Meta` pydantic model (app/models/base.py). `timestamp` is an
abstract instant. -/
structure Meta where
  timestamp : Nat
  request_id : Option String
  nova_version : Option String
  build : Option String
  api_schema_version : Option String
  master_doc_version : Option String
deriving DecidableEq, Repr

/-- The `ErrorInfo` pydantic model (app/models/base.py). -/
structure ErrorInfo where
  code : String
  message : String
deriving DecidableEq, Repr

/-- The `ErrorResponse` pydantic model (app/models/base.py). -/
structure ErrorResponse where
  error : ErrorInfo
  meta : Meta
deriving DecidableEq, Repr

/-- The `Meta` value the two exception handlers in app/main.py build
inline from the version configuration and the current instant. -/
def handlerMeta (version : VersionInfo) (now : Nat) : Meta :=
  { timestamp := now
    request_id := none
    nova_version := version.version
    build := version.build
    api_schema_version := version.api_schema_version
    master_doc_version := version.master_doc_version }

/-- A FastAPI `HTTPException`: status code and optional detail string. -/
structure HTTPException where
  status_code : Nat
  detail : Option String
deriving DecidableEq, Repr

/-- Embeds `http_exception_handler` (app/main.py lines 177-213): the
response's HTTP status and its `ErrorResponse` body.  The message is
`exc.detail or "HTTP error"`. -/
def http_exception_handler (version : VersionInfo) (now : Nat)
    (exc : HTTPException) : Nat × ErrorResponse :=
  let meta := handlerMeta version now
  let error : ErrorInfo :=
    { code := "http_" ++ toString exc.status_code
      message := if pyTruthy exc.detail then exc.detail.getD "" else "HTTP error" }
  (exc.status_code, { error := error, meta := meta })

/-- Embeds `unhandled_exception_handler` (app/main.py lines 216-252):
for any uncaught exception, HTTP status 500 and a fixed generic
`ErrorResponse` body that does not look at the exception. -/
def unhandled_exception_handler (version : VersionInfo) (now : Nat)
    (_exc : PyExc) : Nat × ErrorResponse :=
  let meta := handlerMeta version now
  let error : ErrorInfo :=
    { code := "internal_error", message := "An unexpected error occurred." }
  (500, { error := error, meta := meta })

/-- Embeds the `version()` handler of `GET /version` (app/main.py lines
160-174): a raw, non-enveloped JSON object, modelled as the association
list of its keys and string values in order. -/
def version_endpoint (version_info : VersionInfo) : List (String × String) :=
  [("nova_version", version_info.version.getD "unknown"),
   ("build_date", version_info.build_date.getD "unknown"),
   ("api_schema_version", version_info.api_schema_version.getD "v1"),
   ("master_doc_version", version_info.master_doc_version.getD "unknown")]

/-! Helper lemmas -/

theorem pyTruthy_getD_ne {u : Option String} (h : pyTruthy u = true) : u.getD "" ≠ "" := by
  cases u with
  | none => simp [pyTruthy] at h
  | some s =>
    simp only [pyTruthy, Bool.not_eq_true', beq_eq_false_iff_ne, ne_eq] at h
    simpa using h

theorem exhaustMsg_ne_config (mr : Nat) : exhaustMsg mr ≠ dbUrlNotConfiguredMsg := by
  intro h
  have h1 : (exhaustMsg mr).data.head? = some 'C' := rfl
  have h2 : dbUrlNotConfiguredMsg.data.head? = some 'D' := rfl
  rw [h, h2] at h1
  simp at h1

theorem connectLoop_countP_le (u : String) (f : Nat → Option PyErr) (mr : Nat) (b : ℚ) :
    ∀ (l : List Nat) (last : Option PyErr),
      ((connectLoop u f mr b l last).2.countP isConnectAttempt) ≤ l.length := by
  intro l
  induction l with
  | nil => intro last; simp [connectLoop]
  | cons a rest ih =>
    intro last
    cases hf : f a with
    | none =>
      simp [connectLoop, hf, isConnectAttempt, List.countP_cons]
    | some exc =>
      have h := ih (some exc)
      by_cases hlt : a < mr <;>
        simp only [connectLoop, hf, List.countP_cons, List.countP_append, isConnectAttempt,
          if_pos, if_neg, hlt, ite_true, ite_false, List.countP_nil, List.length_cons] <;>
        simp [isConnectAttempt, List.countP_cons] <;>
        omega

theorem connectLoop_all_fail_trace (u : String) (fail : Nat → PyErr) (mr : Nat) (b : ℚ) :
    ∀ (l : List Nat) (last : Option PyErr),
      (connectLoop u (fun k => some (fail k)) mr b l last).2 =
        (l.map fun k =>
          Event.connectAttempt k "SELECT 1" ::
            (if k < mr then [Event.sleep (b * (k : ℚ))] else [])).flatten := by
  intro l
  induction l with
  | nil => intro last; simp [connectLoop]
  | cons a rest ih =>
    intro last
    simp [connectLoop, ih (some (fail a))]

theorem connectLoop_all_fail_result (u : String) (fail : Nat → PyErr) (mr : Nat) (b : ℚ) :
    ∀ (l : List Nat) (last : Option PyErr),
      (connectLoop u (fun k => some (fail k)) mr b l last).1 =
        .error (engineExhaustedExc mr (l.getLast?.elim last (fun k => some (fail k)))) := by
  intro l
  induction l with
  | nil => intro last; simp [connectLoop, Option.elim]
  | cons a rest ih =>
    intro last
    cases rest with
    | nil => simp [connectLoop, Option.elim]
    | cons b' t =>
      have hne : (b' :: t : List Nat) ≠ [] := by simp
      obtain ⟨x, hx⟩ := Option.isSome_iff_exists.mp (List.getLast?_isSome.mpr hne)
      rw [List.getLast?_cons_cons, hx]
      have h1 := ih (some (fail a))
      rw [hx] at h1
      exact h1

theorem connectLoop_ok_probe (u : String) (f : Nat → Option PyErr) (mr : Nat) (b : ℚ) :
    ∀ (l : List Nat) (last : Option PyErr) (eng : Engine),
      (connectLoop u f mr b l last).1 = .ok eng → ∃ k, k ∈ l ∧ f k = none := by
  intro l
  induction l with
  | nil => intro last eng h; simp [connectLoop] at h
  | cons a rest ih =>
    intro last eng h
    cases hf : f a with
    | none => exact ⟨a, by simp, hf⟩
    | some exc =>
      simp only [connectLoop, hf] at h
      obtain ⟨k, hk, hkf⟩ := ih (some exc) eng h
      exact ⟨k, by simp [hk], hkf⟩

theorem get_engine_uncached (s : Option String) (env : Env) (f : Nat → Option PyErr)
    (mr : Nat) (b : ℚ) (url : String) (hurl : get_database_url s env = .ok url) :
    get_engine true s env f ⟨none, none⟩ mr b =
      (match (connectLoop url f mr b (List.range' 1 mr) none).1 with
       | .ok engine =>
         (.ok engine, ⟨some engine, none⟩,
          .resolveUrl :: (connectLoop url f mr b (List.range' 1 mr) none).2)
       | .error e =>
         (.error e, ⟨none, none⟩,
          .resolveUrl :: (connectLoop url f mr b (List.range' 1 mr) none).2)) := by
  unfold get_engine
  rw [hurl]
  rfl

theorem get_engine_error_state (sql : Bool) (s : Option String) (env : Env)
    (f : Nat → Option PyErr) (st : DbState) (mr : Nat) (b : ℚ) (exc : PyExc)
    (h : (get_engine sql s env f st mr b).1 = .error exc) :
    (get_engine sql s env f st mr b).2.1 = st := by
  unfold get_engine at h ⊢
  cases hE : st._ENGINE with
  | some e => rfl
  | none =>
    rw [hE] at h
    cases sql with
    | false => rfl
    | true =>
      cases hu : get_database_url s env with
      | error e2 => simp [hu]
      | ok url =>
        cases hc : (connectLoop url f mr b (List.range' 1 mr) none).1 with
        | ok eng => simp [hu, hc] at h
        | error e3 => simp [hu, hc]

theorem get_engine_ok_probe (sql : Bool) (s : Option String) (env : Env)
    (f : Nat → Option PyErr) (st : DbState) (mr : Nat) (b : ℚ) (e : Engine)
    (hE : st._ENGINE = none) (h : (get_engine sql s env f st mr b).1 = .ok e) :
    (∃ k, 1 ≤ k ∧ k ≤ mr ∧ f k = none) ∧
    (get_engine sql s env f st mr b).2.1._ENGINE = some e := by
  unfold get_engine at h ⊢
  rw [hE] at h ⊢
  cases sql with
  | false => simp at h
  | true =>
    cases hu : get_database_url s env with
    | error e2 => simp [hu] at h
    | ok url =>
      cases hc : (connectLoop url f mr b (List.range' 1 mr) none).1 with
      | error e3 => simp [hu, hc] at h
      | ok eng =>
        obtain ⟨k, hk, hkf⟩ := connectLoop_ok_probe url f mr b (List.range' 1 mr) none eng hc
        rw [List.mem_range'_1] at hk
        have heng : eng = e := by simp [hu, hc] at h; exact h
        subst heng
        exact ⟨⟨k, hk.1, by omega, hkf⟩, by simp [hu, hc]⟩

theorem yieldWithClose_snd {α : Type} (db : SessionObj) (c : SessionObj → Except PyExc α) :
    (yieldWithClose db c).2 = [SessEvent.sessionClosed] := by
  unfold yieldWithClose
  cases c db <;> rfl

theorem yieldWithClose_fst {α : Type} (db : SessionObj) (c : SessionObj → Except PyExc α) :
    (yieldWithClose db c).1 = c db := by
  unfold yieldWithClose
  cases hc : c db <;> simp [hc]

/-! Claims -/

/-- Claim C1: `resolve_connection_string` (implemented as
`get_database_url`) resolves the connection string in the fixed priority
order `settings.database_url`, then `NOVA_DATABASE_URL`, then
`DATABASE_URL`, and in every environment where none of the three yields
a non-empty value it raises the configuration error — a `RuntimeError`
whose message mentions "not configured" — rather than returning any
value. -/
theorem C1_resolve_connection_string_priority (s nov db : Option String) :
    (get_database_url s ⟨nov, db⟩ =
      if pyTruthy s then .ok (s.getD "")
      else if pyTruthy nov then .ok (nov.getD "")
      else if pyTruthy db then .ok (db.getD "")
      else .error dbUrlNotConfiguredExc) ∧
    dbUrlNotConfiguredExc.err.kind = PyExcKind.runtimeError ∧
    "not configured".data <:+: dbUrlNotConfiguredExc.err.msg.data := by
  refine ⟨?_, rfl, by decide⟩
  unfold get_database_url pyOr
  by_cases h1 : pyTruthy s <;> by_cases h2 : pyTruthy nov <;> by_cases h3 : pyTruthy db <;>
    simp [h1, h2, h3]

/-- Claim C10: `get_database_url` treats empty strings like absent
values at every level of the resolution chain, and never returns an
empty string: when every level is empty or absent it raises instead. -/
theorem C10_empty_string_treated_as_absent :
    (∀ env : Env, get_database_url (some "") env = get_database_url none env) ∧
    (∀ (s db : Option String),
      get_database_url s ⟨some "", db⟩ = get_database_url s ⟨none, db⟩) ∧
    (∀ (s : Option String) (env : Env) (r : String),
      get_database_url s env = .ok r → r ≠ "") := by
  refine ⟨fun env => rfl, fun s db => ?_, fun s env r h => ?_⟩
  · unfold get_database_url pyOr
    by_cases h1 : pyTruthy s <;> simp [h1, pyTruthy]
  · unfold get_database_url at h
    by_cases h1 : pyTruthy (if pyTruthy s then s
        else pyOr env.nova_database_url env.database_url)
    · rw [if_pos h1] at h
      simp only [Except.ok.injEq] at h
      rw [← h]
      exact pyTruthy_getD_ne h1
    · rw [if_neg h1] at h
      simp at h

/-- Witness for C10: the empty settings value falls through to
`DATABASE_URL`, and the returned URL is non-empty. -/
theorem C10_witness :
    get_database_url (some "") ⟨none, some "postgresql://env-generic/test"⟩ =
      get_database_url none ⟨none, some "postgresql://env-generic/test"⟩ ∧
    ("postgresql://env-generic/test" : String) ≠ "" := by
  constructor
  · exact C10_empty_string_treated_as_absent.1 ⟨none, some "postgresql://env-generic/test"⟩
  · exact C10_empty_string_treated_as_absent.2.2 none
      ⟨none, some "postgresql://env-generic/test"⟩ "postgresql://env-generic/test" rfl

/-- Claim C3 counterexample: on concrete inputs, the error raised when
no connection string is configured and the error raised when engine
construction exhausts its retries are BOTH of the same Python exception
class `RuntimeError` — the claim that the two are never conflated into
the same error type is false of the code. -/
theorem C3_counterexample :
    (get_engine true none ⟨none, none⟩ (fun _ => some ⟨.other, "connection refused"⟩)
        ⟨none, none⟩ 3 1).1 = .error dbUrlNotConfiguredExc ∧
    (get_engine true (some "postgresql://db/x") ⟨none, none⟩
        (fun _ => some ⟨.other, "connection refused"⟩) ⟨none, none⟩ 3 1).1 =
      .error (engineExhaustedExc 3 (some ⟨.other, "connection refused"⟩)) ∧
    dbUrlNotConfiguredExc.err.kind =
      (engineExhaustedExc 3 (some ⟨.other, "connection refused"⟩)).err.kind :=
  ⟨rfl, rfl, rfl⟩

/-- Claim C3 (amended): the configuration error and the retry-exhaustion
error are both raised as the SAME exception class, `RuntimeError`; a
caller can still tell the two failures apart, but only by message text —
the configuration message mentions "not configured" while the exhaustion
message never equals it. -/
theorem C3_same_class_distinct_messages (mr : Nat) (last : Option PyErr) :
    dbUrlNotConfiguredExc.err.kind = PyExcKind.runtimeError ∧
    (engineExhaustedExc mr last).err.kind = PyExcKind.runtimeError ∧
    (engineExhaustedExc mr last).err.msg ≠ dbUrlNotConfiguredExc.err.msg ∧
    "not configured".data <:+: dbUrlNotConfiguredExc.err.msg.data :=
  ⟨rfl, rfl, exhaustMsg_ne_config mr, by decide⟩

/-- Claim C4: an explicitly raised HTTP-status error with status `s` and
detail `d` is answered with HTTP status exactly `s` (not 500), an
`ErrorResponse` whose code is `"http_"` concatenated with `s` and whose
message is `d` when non-empty (the generic fallback otherwise), with the
meta block attached. -/
theorem C4_http_exception_handler_envelope (v : VersionInfo) (now : Nat) (s : Nat) :
    (∀ d : String, d ≠ "" →
      http_exception_handler v now ⟨s, some d⟩ =
        (s, ⟨⟨"http_" ++ toString s, d⟩, handlerMeta v now⟩)) ∧
    http_exception_handler v now ⟨s, some ""⟩ =
      (s, ⟨⟨"http_" ++ toString s, "HTTP error"⟩, handlerMeta v now⟩) ∧
    http_exception_handler v now ⟨s, none⟩ =
      (s, ⟨⟨"http_" ++ toString s, "HTTP error"⟩, handlerMeta v now⟩) := by
  refine ⟨fun d hd => ?_, rfl, rfl⟩
  unfold http_exception_handler
  simp [pyTruthy, hd]

/-- Witness for C4: the test route that raises a 404 with detail
"Not Found" yields status 404 and code `http_404`. -/
theorem C4_witness :
    ("Not Found" : String) ≠ "" ∧
    http_exception_handler ⟨none, none, none, none, none⟩ 0 ⟨404, some "Not Found"⟩ =
      (404, ⟨⟨"http_404", "Not Found"⟩, handlerMeta ⟨none, none, none, none, none⟩ 0⟩) := by
  refine ⟨by decide, ?_⟩
  have h := (C4_http_exception_handler_envelope ⟨none, none, none, none, none⟩ 0 404).1
    "Not Found" (by decide)
  rw [h]
  decide

/-- Claim C5: any uncaught non-HTTP failure is answered with HTTP status
500 and an `ErrorResponse` with code `internal_error` and a fixed
generic message that does not depend on the raised exception; for any
two exceptions the response is identical (and identical apart from the
timestamp even at different instants), so no exception detail reaches
the body. -/
theorem C5_unhandled_exception_fixed_body (v : VersionInfo) (n1 n2 : Nat) (e1 e2 : PyExc) :
    (unhandled_exception_handler v n1 e1).1 = 500 ∧
    (unhandled_exception_handler v n1 e1).2.error.code = "internal_error" ∧
    (unhandled_exception_handler v n1 e1).2.error.message = "An unexpected error occurred." ∧
    unhandled_exception_handler v n1 e1 = unhandled_exception_handler v n1 e2 ∧
    (unhandled_exception_handler v n1 e1).2.error = (unhandled_exception_handler v n2 e2).2.error :=
  ⟨rfl, rfl, rfl, rfl, rfl⟩

/-- Claim C8 counterexample: with `api_schema_version` absent from the
version configuration, `GET /version` answers `"v1"` for that field, not
`"unknown"` — the claim that all four fields default to `"unknown"` is
false of the code. -/
theorem C8_counterexample :
    (version_endpoint ⟨none, none, none, none, none⟩).lookup "api_schema_version" = some "v1" ∧
    ¬ ((version_endpoint ⟨none, none, none, none, none⟩).lookup "api_schema_version" =
        some "unknown") :=
  ⟨rfl, by decide⟩

/-- Claim C8 (amended): `GET /version` returns a raw object with exactly
the keys `nova_version`, `build_date`, `api_schema_version`,
`master_doc_version`; `nova_version`, `build_date` and
`master_doc_version` default to `"unknown"` when absent, while
`api_schema_version` defaults to `"v1"`. -/
theorem C8_version_endpoint_shape (vi : VersionInfo) :
    ((version_endpoint vi).map Prod.fst =
      ["nova_version", "build_date", "api_schema_version", "master_doc_version"]) ∧
    ((version_endpoint vi).lookup "nova_version" = some (vi.version.getD "unknown")) ∧
    ((version_endpoint vi).lookup "build_date" = some (vi.build_date.getD "unknown")) ∧
    ((version_endpoint vi).lookup "api_schema_version" =
      some (vi.api_schema_version.getD "v1")) ∧
    ((version_endpoint vi).lookup "master_doc_version" =
      some (vi.master_doc_version.getD "unknown")) :=
  ⟨rfl, rfl, rfl, rfl, rfl⟩

/-- Claim C2: on a first call with no cached pool, `get_engine` makes at
most `max_retries` connection attempts, each opening a connection and
executing the `SELECT 1` probe; when every attempt fails, the trace is
attempt 1, sleep of `backoff_seconds * 1`, attempt 2, sleep of
`backoff_seconds * 2`, ..., attempt `max_retries` with NO sleep after
the final failed attempt, and the raised error chains from the failure
of the last attempt. -/
theorem C2_get_engine_retry_and_backoff (s : Option String) (env : Env) (mr : Nat) (b : ℚ)
    (fail : Nat → PyErr) (oracle : Nat → Option PyErr)
    (hs : pyTruthy s = true) (hmr : 1 ≤ mr) :
    ((get_engine true s env oracle ⟨none, none⟩ mr b).2.2.countP isConnectAttempt ≤ mr) ∧
    ((get_engine true s env (fun k => some (fail k)) ⟨none, none⟩ mr b).2.2 =
      Event.resolveUrl ::
        ((List.range' 1 mr).map fun k =>
          Event.connectAttempt k "SELECT 1" ::
            (if k < mr then [Event.sleep (b * (k : ℚ))] else [])).flatten) ∧
    ((get_engine true s env (fun k => some (fail k)) ⟨none, none⟩ mr b).1 =
      .error (engineExhaustedExc mr (some (fail mr)))) := by
  have hurl : get_database_url s env = .ok (s.getD "") := by
    unfold get_database_url
    simp [hs]
  have hA := get_engine_uncached s env oracle mr b (s.getD "") hurl
  have hB := get_engine_uncached s env (fun k => some (fail k)) mr b (s.getD "") hurl
  obtain ⟨m, rfl⟩ : ∃ m, mr = m + 1 := ⟨mr - 1, by omega⟩
  have hlast : (List.range' 1 (m + 1)).getLast? = some (m + 1) := by
    rw [List.range'_concat, List.getLast?_concat]
    congr 1
    omega
  have hres := connectLoop_all_fail_result (s.getD "") fail (m + 1) b
    (List.range' 1 (m + 1)) none
  rw [hlast] at hres
  refine ⟨?_, ?_, ?_⟩
  · rw [hA]
    have hcnt := connectLoop_countP_le (s.getD "") oracle (m + 1) b
      (List.range' 1 (m + 1)) none
    cases hc : (connectLoop (s.getD "") oracle (m + 1) b (List.range' 1 (m + 1)) none).1 <;>
      simp only [hc] <;>
      simpa [isConnectAttempt, List.countP_cons, List.length_range'] using hcnt
  · rw [hB, hres]
    simp only []
    rw [connectLoop_all_fail_trace]
  · rw [hB, hres]
    rfl

/-- Witness for C2 at `max_retries = 3`, `backoff_seconds = 1`, with
every attempt failing: three attempts, sleeps of exactly 1 and 2 seconds
between them, none after the last, and the raised error chains from the
last failure. -/
theorem C2_witness :
    pyTruthy (some "postgresql://settings-db/test") = true ∧
    1 ≤ 3 ∧
    ((get_engine true (some "postgresql://settings-db/test") ⟨none, none⟩
        (fun _ => some ⟨.other, "connection refused"⟩) ⟨none, none⟩ 3 1).2.2 =
      [Event.resolveUrl, .connectAttempt 1 "SELECT 1", .sleep 1,
       .connectAttempt 2 "SELECT 1", .sleep 2, .connectAttempt 3 "SELECT 1"]) ∧
    ((get_engine true (some "postgresql://settings-db/test") ⟨none, none⟩
        (fun _ => some ⟨.other, "connection refused"⟩) ⟨none, none⟩ 3 1).1 =
      .error (engineExhaustedExc 3 (some ⟨.other, "connection refused"⟩))) := by
  have h := C2_get_engine_retry_and_backoff (some "postgresql://settings-db/test") ⟨none, none⟩
    3 1 (fun _ => ⟨.other, "connection refused"⟩) (fun _ => some ⟨.other, "connection refused"⟩)
    rfl (by norm_num)
  refine ⟨rfl, by norm_num, ?_, h.2.2⟩
  rw [h.2.1]
  have h0 : ((List.range' 1 3).map fun k =>
      Event.connectAttempt k "SELECT 1" ::
        (if k < 3 then [Event.sleep ((1 : ℚ) * (k : ℚ))] else [])).flatten =
      [Event.connectAttempt 1 "SELECT 1", .sleep (1 * ((1 : Nat) : ℚ)),
       .connectAttempt 2 "SELECT 1", .sleep (1 * ((2 : Nat) : ℚ)),
       .connectAttempt 3 "SELECT 1"] := rfl
  rw [h0]
  norm_num

/-- Claim C6: whenever `get_session` produces a unit of work (its
`get_engine` call succeeds), the session lifecycle on EVERY exit path —
the consumer finishing normally or raising — is exactly one creation
followed by exactly one `close()`, the close happening after the
consumer and before the generator finishes, with the consumer's outcome
propagated unchanged. -/
theorem C6_get_session_releases_on_every_path {α : Type} (s : Option String) (env : Env)
    (oracle : Nat → Option PyErr) (st : DbState) (consumer : SessionObj → Except PyExc α)
    (e : Engine) (h : (get_engine true s env oracle st 3 1).1 = .ok e) :
    ((get_session true s env oracle st consumer).2.2.2 =
      [SessEvent.sessionCreated, SessEvent.sessionClosed]) ∧
    ((get_session true s env oracle st consumer).2.2.2.count SessEvent.sessionClosed = 1) ∧
    (∃ db : SessionObj, (get_session true s env oracle st consumer).1 = consumer db) := by
  have h1 : (get_session true s env oracle st consumer).2.2.2 =
      [SessEvent.sessionCreated, SessEvent.sessionClosed] := by
    simp [get_session, h, yieldWithClose_snd]
  refine ⟨h1, by rw [h1]; rfl, ?_⟩
  simp only [get_session, h, yieldWithClose_fst]
  exact ⟨_, rfl⟩

/-- Witness for C6: with a cached engine and a consumer that raises (the
`"boom"` of the test suite), the session is still created and closed
exactly once. -/
theorem C6_witness :
    ((get_engine true none ⟨none, none⟩ (fun _ => none)
        ⟨some ⟨"postgresql://db/x", true⟩, none⟩ 3 1).1 =
      .ok ⟨"postgresql://db/x", true⟩) ∧
    ((get_session true none ⟨none, none⟩ (fun _ => none)
        ⟨some ⟨"postgresql://db/x", true⟩, none⟩
        (fun _ => (.error ⟨⟨.runtimeError, "boom"⟩, none⟩ : Except PyExc Nat))).2.2.2 =
      [SessEvent.sessionCreated, SessEvent.sessionClosed]) := by
  refine ⟨rfl, ?_⟩
  exact (C6_get_session_releases_on_every_path none ⟨none, none⟩ (fun _ => none)
    ⟨some ⟨"postgresql://db/x", true⟩, none⟩
    (fun _ => (.error ⟨⟨.runtimeError, "boom"⟩, none⟩ : Except PyExc Nat))
    ⟨"postgresql://db/x", true⟩ rfl).1

/-- Claim C7: once an engine is cached, `get_engine` is idempotent: with
ANY argument values for `max_retries` and `backoff_seconds` (and even
with SQLAlchemy reported missing) it returns the same cached engine,
leaves the state unchanged, resolves no connection string, opens no
connection, and performs no retry or sleep (empty event trace); likewise
`get_session` performs no connection attempts and no sleeps. -/
theorem C7_get_engine_idempotent_when_cached {α : Type} (sql : Bool) (s : Option String)
    (env : Env) (oracle : Nat → Option PyErr) (st : DbState) (e : Engine)
    (mr : Nat) (b : ℚ) (consumer : SessionObj → Except PyExc α)
    (h : st._ENGINE = some e) :
    get_engine sql s env oracle st mr b = (.ok e, st, []) ∧
    (get_session true s env oracle st consumer).2.2.1 = [] := by
  have hge : ∀ (sql' : Bool) (mr' : Nat) (b' : ℚ),
      get_engine sql' s env oracle st mr' b' = (.ok e, st, []) := by
    intro sql' mr' b'
    unfold get_engine
    rw [h]
  refine ⟨hge sql mr b, ?_⟩
  simp [get_session, hge]

/-- Witness for C7: with the engine cached, even an unconfigured
connection string, a failing connection oracle, SQLAlchemy reported
missing and non-default retry arguments, the cached engine is returned
with no events. -/
theorem C7_witness :
    ((⟨some ⟨"postgresql://db/x", true⟩, none⟩ : DbState)._ENGINE =
      some ⟨"postgresql://db/x", true⟩) ∧
    (get_engine false none ⟨none, none⟩ (fun _ => some ⟨.other, "down"⟩)
        ⟨some ⟨"postgresql://db/x", true⟩, none⟩ 7 5 =
      (.ok ⟨"postgresql://db/x", true⟩, ⟨some ⟨"postgresql://db/x", true⟩, none⟩, [])) := by
  refine ⟨rfl, ?_⟩
  exact (C7_get_engine_idempotent_when_cached false none ⟨none, none⟩
    (fun _ => some ⟨.other, "down"⟩) ⟨some ⟨"postgresql://db/x", true⟩, none⟩
    ⟨"postgresql://db/x", true⟩ 7 5 (fun _ => (.ok 0 : Except PyExc Nat)) rfl).1

/-- Claim C9: pool construction failure is atomic with respect to the
module-level cache: whenever `get_engine` raises from the empty state,
`_ENGINE` is left at `none`; and the cache is assigned only after a
successful probe — an `ok` result from the empty state implies some
attempt within the retry budget succeeded, and only then is the engine
cached. -/
theorem C9_engine_cache_untouched_on_failure (sql : Bool) (s : Option String) (env : Env)
    (oracle : Nat → Option PyErr) (mr : Nat) (b : ℚ) (exc : PyExc)
    (h : (get_engine sql s env oracle ⟨none, none⟩ mr b).1 = .error exc) :
    ((get_engine sql s env oracle ⟨none, none⟩ mr b).2.1 = ⟨none, none⟩) ∧
    (∀ (st : DbState) (e : Engine), st._ENGINE = none →
      (get_engine sql s env oracle st mr b).1 = .ok e →
      (∃ k, 1 ≤ k ∧ k ≤ mr ∧ oracle k = none) ∧
      (get_engine sql s env oracle st mr b).2.1._ENGINE = some e) := by
  refine ⟨get_engine_error_state sql s env oracle ⟨none, none⟩ mr b exc h, ?_⟩
  intro st e hE hok
  exact get_engine_ok_probe sql s env oracle st mr b e hE hok

/-- Witness for C9: all attempts failing with `max_retries = 2` raises,
and the cached engine handle stays `none`. -/
theorem C9_witness :
    ((get_engine true (some "postgresql://db/x") ⟨none, none⟩
        (fun _ => some ⟨.other, "refused"⟩) ⟨none, none⟩ 2 1).1 =
      .error (engineExhaustedExc 2 (some ⟨.other, "refused"⟩))) ∧
    ((get_engine true (some "postgresql://db/x") ⟨none, none⟩
        (fun _ => some ⟨.other, "refused"⟩) ⟨none, none⟩ 2 1).2.1 = ⟨none, none⟩) := by
  refine ⟨rfl, ?_⟩
  exact (C9_engine_cache_untouched_on_failure true (some "postgresql://db/x") ⟨none, none⟩
    (fun _ => some ⟨.other, "refused"⟩) 2 1
    (engineExhaustedExc 2 (some ⟨.other, "refused"⟩)) rfl).1

end Nova
